import Mathlib

/-!
Verification of the rec-sizing repository against its specification.

The development embeds, as Lean definitions over `ℚ`:
* the example fixtures `CLUSTERING_INPUTS` / `CLUSTERING_OUTPUTS` from
  `src/rec_sizing/clustering/structures/I_O_clustering.py`;
* the wrapper `run_pre_collective_pool_milp` from
  `src/rec_sizing/optimization_functions.py`;
* the collective-MILP constraint system, output mapper, solver adapter and
  configuration resolver, modelled from the specification, since the class
  `CollectiveMILPPool` itself is not among the provided source files.
-/

namespace RecSizing

/-! ## Embedding of `src/rec_sizing/clustering/structures/I_O_clustering.py` -/

/-- The per-meter time-series block of `CLUSTERING_INPUTS["timeseries_data"]`. -/
structure MeterTimeseries where
  e_g_factor : List ℚ
  e_c : List ℚ
  l_buy : List ℚ
  l_sell : List ℚ

/-- The shape of the `CLUSTERING_INPUTS` dictionary. -/
structure ClusteringInputs where
  nr_days : ℚ
  delta_t : ℚ
  nr_representative_days : ℕ
  l_grid : List ℚ
  timeseries_data : List (String × MeterTimeseries)

/-- `CLUSTERING_INPUTS` from `I_O_clustering.py`, lines 2-66, verbatim. -/
def CLUSTERING_INPUTS : ClusteringInputs where
  nr_days := 2
  delta_t := 1
  nr_representative_days := 1
  l_grid := [0.01, 0.02, 0.03, 0.04, 0.01, 0.02, 0.03, 0.04, 0.01, 0.02, 0.03, 0.04,
             0.01, 0.02, 0.03, 0.04, 0.01, 0.02, 0.03, 0.04, 0.01, 0.02, 0.03, 0.04,
             0.02, 0.03, 0.04, 0.05, 0.02, 0.03, 0.04, 0.05, 0.02, 0.03, 0.04, 0.05,
             0.02, 0.03, 0.04, 0.05, 0.02, 0.03, 0.04, 0.05, 0.02, 0.03, 0.04, 0.05]
  timeseries_data := [
    ("CPE#1",
      { e_g_factor := [0.0, 0.0, 0.0, 0.0, 0.0, 0.1, 0.2, 0.3, 0.4, 0.5, 0.6, 0.7,
                       0.8, 0.7, 0.6, 0.5, 0.4, 0.3, 0.2, 0.1, 0.0, 0.0, 0.0, 0.0,
                       0.0, 0.0, 0.0, 0.0, 0.0, 0.2, 0.3, 0.4, 0.5, 0.6, 0.7, 0.8,
                       0.9, 0.8, 0.7, 0.6, 0.5, 0.4, 0.3, 0.2, 0.0, 0.0, 0.0, 0.0]
        e_c := [1, 2, 3, 4, 3, 2, 1, 2, 3, 4, 3, 2,
                1, 2, 3, 4, 3, 2, 1, 2, 3, 4, 3, 2,
                2, 3, 4, 5, 4, 3, 2, 3, 4, 5, 4, 3,
                2, 3, 4, 5, 4, 3, 2, 3, 4, 5, 4, 3]
        l_buy := [0.05, 0.05, 0.05, 0.05, 0.05, 0.05, 0.06, 0.06, 0.06, 0.06, 0.06, 0.06,
                  0.05, 0.05, 0.05, 0.05, 0.05, 0.05, 0.06, 0.06, 0.06, 0.06, 0.06, 0.06,
                  0.05, 0.05, 0.05, 0.05, 0.05, 0.05, 0.06, 0.06, 0.06, 0.06, 0.06, 0.06,
                  0.05, 0.05, 0.05, 0.05, 0.05, 0.05, 0.06, 0.06, 0.06, 0.06, 0.06, 0.06]
        l_sell := [0.05, 0.05, 0.05, 0.05, 0.05, 0.05, 0.06, 0.06, 0.06, 0.06, 0.06, 0.06,
                   0.05, 0.05, 0.05, 0.05, 0.05, 0.05, 0.06, 0.06, 0.06, 0.06, 0.06, 0.06,
                   0.05, 0.05, 0.05, 0.05, 0.05, 0.05, 0.06, 0.06, 0.06, 0.06, 0.06, 0.06,
                   0.05, 0.05, 0.05, 0.05, 0.05, 0.05, 0.06, 0.06, 0.06, 0.06, 0.06, 0.06] }),
    ("CPE#2",
      { e_g_factor := [0.0, 0.0, 0.0, 0.0, 0.0, 0.0, 0.0, 0.0, 0.0, 0.0, 0.0, 0.0,
                       0.0, 0.0, 0.0, 0.0, 0.0, 0.0, 0.0, 0.0, 0.0, 0.0, 0.0, 0.0,
                       0.0, 0.0, 0.0, 0.0, 0.0, 0.0, 0.0, 0.0, 0.0, 0.0, 0.0, 0.0,
                       0.0, 0.0, 0.0, 0.0, 0.0, 0.0, 0.0, 0.0, 0.0, 0.0, 0.0, 0.0]
        e_c := [0.1, 0.2, 0.3, 0.4, 0.3, 0.2, 0.1, 0.2, 0.3, 0.4, 0.3, 0.2,
                0.1, 0.2, 0.3, 0.4, 0.3, 0.2, 0.1, 0.2, 0.3, 0.4, 0.3, 0.2,
                0.2, 0.3, 0.4, 0.5, 0.4, 0.3, 0.2, 0.3, 0.4, 0.5, 0.4, 0.3,
                0.2, 0.3, 0.4, 0.5, 0.4, 0.3, 0.2, 0.3, 0.4, 0.5, 0.4, 0.3]
        l_buy := [0.05, 0.05, 0.05, 0.05, 0.05, 0.05, 0.06, 0.06, 0.06, 0.06, 0.06, 0.06,
                  0.05, 0.05, 0.05, 0.05, 0.05, 0.05, 0.06, 0.06, 0.06, 0.06, 0.06, 0.06,
                  0.06, 0.06, 0.06, 0.06, 0.06, 0.06, 0.05, 0.05, 0.05, 0.05, 0.05, 0.05,
                  0.06, 0.06, 0.06, 0.06, 0.06, 0.06, 0.05, 0.05, 0.05, 0.05, 0.05, 0.05]
        l_sell := [0.05, 0.05, 0.05, 0.05, 0.05, 0.05, 0.06, 0.06, 0.06, 0.06, 0.06, 0.06,
                   0.05, 0.05, 0.05, 0.05, 0.05, 0.05, 0.06, 0.06, 0.06, 0.06, 0.06, 0.06,
                   0.06, 0.06, 0.06, 0.06, 0.06, 0.06, 0.05, 0.05, 0.05, 0.05, 0.05, 0.05,
                   0.06, 0.06, 0.06, 0.06, 0.06, 0.06, 0.05, 0.05, 0.05, 0.05, 0.05, 0.05] }),
    ("CPE#3",
      { e_g_factor := [0.0, 0.0, 0.0, 0.0, 0.0, 0.1, 0.2, 0.3, 0.4, 0.5, 0.6, 0.7,
                       0.8, 0.7, 0.6, 0.5, 0.4, 0.3, 0.2, 0.1, 0.0, 0.0, 0.0, 0.0,
                       0.0, 0.0, 0.0, 0.0, 0.0, 0.2, 0.3, 0.4, 0.5, 0.6, 0.7, 0.8,
                       0.9, 0.8, 0.7, 0.6, 0.5, 0.4, 0.3, 0.2, 0.0, 0.0, 0.0, 0.0]
        e_c := [1, 2, 3, 4, 3, 2, 1, 2, 3, 4, 3, 2,
                1, 2, 3, 4, 3, 2, 1, 2, 3, 4, 3, 2,
                2, 3, 4, 5, 4, 3, 2, 3, 4, 5, 4, 3,
                2, 3, 4, 5, 4, 3, 2, 3, 4, 5, 4, 3]
        l_buy := [0.05, 0.05, 0.05, 0.05, 0.05, 0.05, 0.06, 0.06, 0.06, 0.06, 0.06, 0.06,
                  0.05, 0.05, 0.05, 0.05, 0.05, 0.05, 0.06, 0.06, 0.06, 0.06, 0.06, 0.06,
                  0.05, 0.05, 0.05, 0.05, 0.05, 0.05, 0.06, 0.06, 0.06, 0.06, 0.06, 0.06,
                  0.05, 0.05, 0.05, 0.05, 0.05, 0.05, 0.06, 0.06, 0.06, 0.06, 0.06, 0.06]
        l_sell := [0.05, 0.05, 0.05, 0.05, 0.05, 0.05, 0.06, 0.06, 0.06, 0.06, 0.06, 0.06,
                   0.05, 0.05, 0.05, 0.05, 0.05, 0.05, 0.06, 0.06, 0.06, 0.06, 0.06, 0.06,
                   0.05, 0.05, 0.05, 0.05, 0.05, 0.05, 0.06, 0.06, 0.06, 0.06, 0.06, 0.06,
                   0.05, 0.05, 0.05, 0.05, 0.05, 0.05, 0.06, 0.06, 0.06, 0.06, 0.06, 0.06] })]

/-- The shape of the `CLUSTERING_OUTPUTS` dictionary: representative tables are
keyed first by meter id, then by cluster label. -/
structure ClusteringOutputs where
  inertia : ℚ
  cluster_labels : List String
  representative_e_g_factor : List (String × List (String × List ℚ))
  representative_e_c : List (String × List (String × List ℚ))
  representative_l_buy : List (String × List (String × List ℚ))
  representative_l_sell : List (String × List (String × List ℚ))
  representative_l_grid : List (String × List ℚ)
  cluster_nr_days : List (String × ℚ)

/-- `CLUSTERING_OUTPUTS` from `I_O_clustering.py`, lines 68-134, verbatim. -/
def CLUSTERING_OUTPUTS : ClusteringOutputs where
  inertia := 7.198
  cluster_labels := ["0", "0"]
  representative_e_g_factor := [
    ("CPE#1", [("0", [0.0, 0.0, 0.0, 0.0, 0.0, 0.1, 0.2, 0.3, 0.4, 0.5, 0.6, 0.7,
                      0.8, 0.7, 0.6, 0.5, 0.4, 0.3, 0.2, 0.1, 0.0, 0.0, 0.0, 0.0])]),
    ("CPE#2", [("0", [0.0, 0.0, 0.0, 0.0, 0.0, 0.0, 0.0, 0.0, 0.0, 0.0, 0.0, 0.0,
                      0.0, 0.0, 0.0, 0.0, 0.0, 0.0, 0.0, 0.0, 0.0, 0.0, 0.0, 0.0])]),
    ("CPE#3", [("0", [0.0, 0.0, 0.0, 0.0, 0.0, 0.1, 0.2, 0.3, 0.4, 0.5, 0.6, 0.7,
                      0.8, 0.7, 0.6, 0.5, 0.4, 0.3, 0.2, 0.1, 0.0, 0.0, 0.0, 0.0])])]
  representative_e_c := [
    ("CPE#1", [("0", [1.0, 2.0, 3.0, 4.0, 3.0, 2.0, 1.0, 2.0, 3.0, 4.0, 3.0, 2.0,
                      1.0, 2.0, 3.0, 4.0, 3.0, 2.0, 1.0, 2.0, 3.0, 4.0, 3.0, 2.0])]),
    ("CPE#2", [("0", [0.1, 0.2, 0.3, 0.4, 0.3, 0.2, 0.1, 0.2, 0.3, 0.4, 0.3, 0.2,
                      0.1, 0.2, 0.3, 0.4, 0.3, 0.2, 0.1, 0.2, 0.3, 0.4, 0.3, 0.2])]),
    ("CPE#3", [("0", [1.0, 2.0, 3.0, 4.0, 3.0, 2.0, 1.0, 2.0, 3.0, 4.0, 3.0, 2.0,
                      1.0, 2.0, 3.0, 4.0, 3.0, 2.0, 1.0, 2.0, 3.0, 4.0, 3.0, 2.0])])]
  representative_l_buy := [
    ("CPE#1", [("0", [0.05, 0.05, 0.05, 0.05, 0.05, 0.05, 0.06, 0.06, 0.06, 0.06, 0.06, 0.06,
                      0.05, 0.05, 0.05, 0.05, 0.05, 0.05, 0.06, 0.06, 0.06, 0.06, 0.06, 0.06])]),
    ("CPE#2", [("0", [0.05, 0.05, 0.05, 0.05, 0.05, 0.05, 0.06, 0.06, 0.06, 0.06, 0.06, 0.06,
                      0.05, 0.05, 0.05, 0.05, 0.05, 0.05, 0.06, 0.06, 0.06, 0.06, 0.06, 0.06])]),
    ("CPE#3", [("0", [0.05, 0.05, 0.05, 0.05, 0.05, 0.05, 0.06, 0.06, 0.06, 0.06, 0.06, 0.06,
                      0.05, 0.05, 0.05, 0.05, 0.05, 0.05, 0.06, 0.06, 0.06, 0.06, 0.06, 0.06])])]
  representative_l_sell := [
    ("CPE#1", [("0", [0.05, 0.05, 0.05, 0.05, 0.05, 0.05, 0.06, 0.06, 0.06, 0.06, 0.06, 0.06,
                      0.05, 0.05, 0.05, 0.05, 0.05, 0.05, 0.06, 0.06, 0.06, 0.06, 0.06, 0.06])]),
    ("CPE#2", [("0", [0.05, 0.05, 0.05, 0.05, 0.05, 0.05, 0.06, 0.06, 0.06, 0.06, 0.06, 0.06,
                      0.05, 0.05, 0.05, 0.05, 0.05, 0.05, 0.06, 0.06, 0.06, 0.06, 0.06, 0.06])]),
    ("CPE#3", [("0", [0.05, 0.05, 0.05, 0.05, 0.05, 0.05, 0.06, 0.06, 0.06, 0.06, 0.06, 0.06,
                      0.05, 0.05, 0.05, 0.05, 0.05, 0.05, 0.06, 0.06, 0.06, 0.06, 0.06, 0.06])])]
  representative_l_grid := [
    ("0", [0.01, 0.02, 0.03, 0.04, 0.01, 0.02, 0.03, 0.04, 0.01, 0.02, 0.03, 0.04,
           0.01, 0.02, 0.03, 0.04, 0.01, 0.02, 0.03, 0.04, 0.01, 0.02, 0.03, 0.04])]
  cluster_nr_days := [("0", 2)]

/-- Lookup of a representative series for a given meter id and cluster label. -/
def repOf (tbl : List (String × List (String × List ℚ))) (meter cluster : String) :
    Option (List ℚ) :=
  (tbl.lookup meter).bind (fun cm => cm.lookup cluster)

/-- Lookup of an input series (selected by `f`) for a given meter id. -/
def seriesOf (ci : ClusteringInputs) (meter : String) (f : MeterTimeseries → List ℚ) :
    Option (List ℚ) :=
  (ci.timeseries_data.lookup meter).map f

/-- Modelled from the spec: the length invariant enforced by the Horizon & Config
Resolver (the resolver itself, inside `CollectiveMILPPool`, is not among the
provided source files) — every time-indexed array of the input has length
`T = nr_days * 24 / delta_t`. -/
def hasValidSeriesLengths (ci : ClusteringInputs) (T : ℕ) : Prop :=
  ci.nr_days * (24 / ci.delta_t) = (T : ℚ) ∧
  ci.l_grid.length = T ∧
  ∀ p ∈ ci.timeseries_data,
    p.2.e_g_factor.length = T ∧ p.2.e_c.length = T ∧
    p.2.l_buy.length = T ∧ p.2.l_sell.length = T

/-- C8: with `nr_days = 2` and `delta_t = 1` the horizon is
`T = nr_days * 24 / delta_t = 48`, and in the `CLUSTERING_INPUTS` fixture
`l_grid` and every per-meter series `e_g_factor`, `e_c`, `l_buy`, `l_sell`
has length exactly 48. -/
theorem clustering_inputs_length_invariant : hasValidSeriesLengths CLUSTERING_INPUTS 48 := by
  unfold hasValidSeriesLengths
  refine ⟨by norm_num [CLUSTERING_INPUTS], by decide, by decide⟩

/-- Modelled from the spec: the per-meter term of the collective objective
(the Objective Assembler inside `CollectiveMILPPool` is not among the provided
source files) — purchase cost minus sale revenue over the (weighted)
representative horizon, plus degradation, overcapacity-penalty and investment
costs. -/
def meterObjTerm (w : ℚ) (lbuy lsell e_sup e_sur : List ℚ)
    (degCost pExtraCost invCost : ℚ) : ℚ :=
  w * ((List.zipWith (fun a b => a * b) lbuy e_sup).sum -
       (List.zipWith (fun a b => a * b) lsell e_sur).sum) +
  degCost + pExtraCost + invCost

/-- C9: in `CLUSTERING_OUTPUTS`, meters CPE#1 and CPE#3 have element-wise
identical representative clustered profiles (`representative_e_g_factor`,
`representative_e_c`, `representative_l_buy`, `representative_l_sell`), and
hence their objective terms in the resulting optimization are equal for any
common decision values. -/
theorem cpe1_cpe3_identical_profiles_equal_objective_terms :
    repOf CLUSTERING_OUTPUTS.representative_e_g_factor "CPE#1" "0" =
      repOf CLUSTERING_OUTPUTS.representative_e_g_factor "CPE#3" "0" ∧
    repOf CLUSTERING_OUTPUTS.representative_e_c "CPE#1" "0" =
      repOf CLUSTERING_OUTPUTS.representative_e_c "CPE#3" "0" ∧
    repOf CLUSTERING_OUTPUTS.representative_l_buy "CPE#1" "0" =
      repOf CLUSTERING_OUTPUTS.representative_l_buy "CPE#3" "0" ∧
    repOf CLUSTERING_OUTPUTS.representative_l_sell "CPE#1" "0" =
      repOf CLUSTERING_OUTPUTS.representative_l_sell "CPE#3" "0" ∧
    ∀ w e_sup e_sur degCost pExtraCost invCost,
      meterObjTerm w ((repOf CLUSTERING_OUTPUTS.representative_l_buy "CPE#1" "0").getD [])
        ((repOf CLUSTERING_OUTPUTS.representative_l_sell "CPE#1" "0").getD [])
        e_sup e_sur degCost pExtraCost invCost =
      meterObjTerm w ((repOf CLUSTERING_OUTPUTS.representative_l_buy "CPE#3" "0").getD [])
        ((repOf CLUSTERING_OUTPUTS.representative_l_sell "CPE#3" "0").getD [])
        e_sup e_sur degCost pExtraCost invCost := by
  have hbuy : repOf CLUSTERING_OUTPUTS.representative_l_buy "CPE#1" "0" =
      repOf CLUSTERING_OUTPUTS.representative_l_buy "CPE#3" "0" := rfl
  have hsell : repOf CLUSTERING_OUTPUTS.representative_l_sell "CPE#1" "0" =
      repOf CLUSTERING_OUTPUTS.representative_l_sell "CPE#3" "0" := rfl
  refine ⟨rfl, rfl, hbuy, hsell, ?_⟩
  intro w e_sup e_sur degCost pExtraCost invCost
  rw [hbuy, hsell]

/-- C10: every representative series of cluster "0" in `CLUSTERING_OUTPUTS`
equals, element for element, the first 24 entries (the first day) of the
corresponding series in `CLUSTERING_INPUTS` — for `l_grid` and, for each of
CPE#1, CPE#2 and CPE#3, for all four per-meter series; and it is not the
element-wise average of the two clustered days. -/
theorem representative_day_is_first_input_day :
    (CLUSTERING_OUTPUTS.representative_l_grid.lookup "0" =
      some (CLUSTERING_INPUTS.l_grid.take 24)) ∧
    (∀ m ∈ ["CPE#1", "CPE#2", "CPE#3"],
      repOf CLUSTERING_OUTPUTS.representative_e_g_factor m "0" =
        (seriesOf CLUSTERING_INPUTS m (fun x => x.e_g_factor)).map (List.take 24) ∧
      repOf CLUSTERING_OUTPUTS.representative_e_c m "0" =
        (seriesOf CLUSTERING_INPUTS m (fun x => x.e_c)).map (List.take 24) ∧
      repOf CLUSTERING_OUTPUTS.representative_l_buy m "0" =
        (seriesOf CLUSTERING_INPUTS m (fun x => x.l_buy)).map (List.take 24) ∧
      repOf CLUSTERING_OUTPUTS.representative_l_sell m "0" =
        (seriesOf CLUSTERING_INPUTS m (fun x => x.l_sell)).map (List.take 24)) ∧
    repOf CLUSTERING_OUTPUTS.representative_e_c "CPE#1" "0" ≠
      (seriesOf CLUSTERING_INPUTS "CPE#1" (fun x => x.e_c)).map
        (fun xs => List.zipWith (fun a b => (a + b) / 2) (xs.take 24) (xs.drop 24)) := by
  refine ⟨rfl, ?_, ?_⟩
  · intro m hm
    simp only [List.mem_cons, List.not_mem_nil, or_false] at hm
    rcases hm with rfl | rfl | rfl
    · exact ⟨rfl, by simp only [repOf, seriesOf, CLUSTERING_INPUTS, CLUSTERING_OUTPUTS,
        List.lookup]; norm_num, rfl, rfl⟩
    · exact ⟨rfl, rfl, rfl, rfl⟩
    · have bne1 : ("CPE#3" == "CPE#1") = false := rfl
      have bne2 : ("CPE#3" == "CPE#2") = false := rfl
      exact ⟨rfl, by simp only [repOf, seriesOf, CLUSTERING_INPUTS, CLUSTERING_OUTPUTS,
        List.lookup, bne1, bne2, beq_self_eq_true]; norm_num, rfl, rfl⟩
  · simp only [repOf, seriesOf, CLUSTERING_INPUTS, CLUSTERING_OUTPUTS, List.lookup]
    norm_num

/-! ## Modelled collective MILP

The class `CollectiveMILPPool` (variables, constraints, objective, output
mapper) is not among the provided source files — only its caller
`run_pre_collective_pool_milp` is.  The definitions below are therefore
modelled from the specification (sections 4.2-4.5). -/

/-- Modelled from the spec: the community-level parameters of the collective
MILP that the constraint families below need (`CollectiveMILPPool.__init__` is
not among the provided source files). -/
structure MilpParams (nM : ℕ) where
  total_share_coeffs : Bool
  soc_min : Fin nM → ℚ
  soc_max : Fin nM → ℚ
  eff_bc : Fin nM → ℚ
  eff_bd : Fin nM → ℚ
  initContent : Fin nM → ℚ

/-- Modelled from the spec: the per-meter, per-time-step decision state of the
collective MILP (consumption `e_c`, available self-generation `e_g`, retailer
purchase `e_sup` and sale `e_sur`, storage charge `e_bc`, discharge `e_bd` and
content `e_bat`, internally allocated energy received `e_alc` and given
`e_slc`, and storage capacity `e_bn`). -/
structure MilpSolution (nM T : ℕ) where
  e_c : Fin nM → Fin T → ℚ
  e_g : Fin nM → Fin T → ℚ
  e_sup : Fin nM → Fin T → ℚ
  e_sur : Fin nM → Fin T → ℚ
  e_bc : Fin nM → Fin T → ℚ
  e_bd : Fin nM → Fin T → ℚ
  e_bat : Fin nM → Fin T → ℚ
  e_alc : Fin nM → Fin T → ℚ
  e_slc : Fin nM → Fin T → ℚ
  e_bn : Fin nM → ℚ

/-- Modelled from the spec: the central energy-balance constraint — consumption
plus charging minus discharging minus available self-generation equals net
grid interaction (purchase minus sale) minus internally allocated energy
received plus internally allocated energy given, for every meter and step. -/
def energyBalanceOK {nM T : ℕ} (s : MilpSolution nM T) : Prop :=
  ∀ m t, s.e_c m t + s.e_bc m t - s.e_bd m t - s.e_g m t =
    (s.e_sup m t - s.e_sur m t) - s.e_alc m t + s.e_slc m t

/-- The storage content at the step before `t`: the previous step's content, or
the initial content implied by `e_bn_init` at the first step. -/
def prevContent {nM T : ℕ} (p : MilpParams nM) (s : MilpSolution nM T)
    (m : Fin nM) (t : Fin T) : ℚ :=
  if 0 < t.val then s.e_bat m ⟨t.val - 1, Nat.lt_of_le_of_lt (Nat.sub_le _ _) t.isLt⟩
  else p.initContent m

/-- Modelled from the spec: storage dynamics with efficiency losses,
`content[t] = content[t-1] + eff_bc * charge[t] - discharge[t] / eff_bd`. -/
def storageDynamicsOK {nM T : ℕ} (p : MilpParams nM) (s : MilpSolution nM T) : Prop :=
  ∀ m t, s.e_bat m t =
    prevContent p s m t + p.eff_bc m * s.e_bc m t - s.e_bd m t / p.eff_bd m

/-- Modelled from the spec: the storage content bounds
`soc_min * capacity ≤ content[t] ≤ soc_max * capacity`. -/
def contentBoundsOK {nM T : ℕ} (p : MilpParams nM) (s : MilpSolution nM T) : Prop :=
  ∀ m t, p.soc_min m * s.e_bn m ≤ s.e_bat m t ∧ s.e_bat m t ≤ p.soc_max m * s.e_bn m

/-- Modelled from the spec: the binary complementarity constraint forbidding
simultaneous strictly positive charge and discharge in the same step. -/
def noSimultaneousChargeDischarge {nM T : ℕ} (s : MilpSolution nM T) : Prop :=
  ∀ m t, ¬(0 < s.e_bc m t ∧ 0 < s.e_bd m t)

/-- Community-wide deficit at step `t`: total consumption exceeds total
available self-generation. -/
def communityDeficit {nM T : ℕ} (s : MilpSolution nM T) (t : Fin T) : Prop :=
  (∑ m, s.e_g m t) < (∑ m, s.e_c m t)

/-- Unmet allocatable demand of meter `m` at step `t`: consumption not covered
by the meter's own generation or by the internal allocation it received. -/
def unmetDemand {nM T : ℕ} (s : MilpSolution nM T) (m : Fin nM) (t : Fin T) : ℚ :=
  s.e_c m t - s.e_g m t - s.e_alc m t

/-- Modelled from the spec: under `total_share_coeffs = true` and
community-wide deficit in a step, no external sale is permitted while unmet
internal demand exists. -/
def totalShareRuleOK {nM T : ℕ} (p : MilpParams nM) (s : MilpSolution nM T) : Prop :=
  p.total_share_coeffs = true →
    ∀ t, communityDeficit s t → (∃ m, 0 < unmetDemand s m t) →
      ∀ m, s.e_sur m t = 0

/-- Modelled from the spec: the constraint system of the collective MILP, as
far as the claims under verification need it. -/
def Feasible {nM T : ℕ} (p : MilpParams nM) (s : MilpSolution nM T) : Prop :=
  energyBalanceOK s ∧ storageDynamicsOK p s ∧ contentBoundsOK p s ∧
  noSimultaneousChargeDischarge s ∧ totalShareRuleOK p s

/-- The solve result handed to the output mapper: a status string and the
primal values. -/
structure SolveOutput (nM T : ℕ) where
  milp_status : String
  sol : MilpSolution nM T

/-- Modelled from the spec: the Solver Adapter contract — when the returned
status is "Optimal", the primal values satisfy the constraint system. -/
def SolverContract {nM T : ℕ} (p : MilpParams nM) (out : SolveOutput nM T) : Prop :=
  out.milp_status = "Optimal" → Feasible p out.sol

/-- C1: for every meter and every time step of a solution whose `milp_status`
is "Optimal", the energy balance holds — consumption plus charging minus
discharging minus available self-generation equals net grid interaction
(purchase minus sale) minus internally allocated energy received plus
internally allocated energy given. -/
theorem optimal_solution_energy_balance {nM T : ℕ} (p : MilpParams nM)
    (out : SolveOutput nM T) (hc : SolverContract p out)
    (hopt : out.milp_status = "Optimal") :
    ∀ m t, out.sol.e_c m t + out.sol.e_bc m t - out.sol.e_bd m t - out.sol.e_g m t =
      (out.sol.e_sup m t - out.sol.e_sur m t) - out.sol.e_alc m t + out.sol.e_slc m t :=
  (hc hopt).1

/-- C6: for every meter and every time step of an optimal solution, the storage
content stays within `[soc_min * capacity, soc_max * capacity]` and charge and
discharge are never both strictly positive in the same step. -/
theorem optimal_solution_storage_bounds_and_complementarity {nM T : ℕ}
    (p : MilpParams nM) (out : SolveOutput nM T) (hc : SolverContract p out)
    (hopt : out.milp_status = "Optimal") :
    (∀ m t, p.soc_min m * out.sol.e_bn m ≤ out.sol.e_bat m t ∧
      out.sol.e_bat m t ≤ p.soc_max m * out.sol.e_bn m) ∧
    (∀ m t, ¬(0 < out.sol.e_bc m t ∧ 0 < out.sol.e_bd m t)) :=
  ⟨(hc hopt).2.2.1, (hc hopt).2.2.2.1⟩

/-- C5: in an optimal solution with `total_share_coeffs = true`, in every step
where the community as a whole is in deficit, zero energy is sold externally
while any member still has unmet allocatable demand in that step. -/
theorem total_share_no_external_sale_under_deficit {nM T : ℕ}
    (p : MilpParams nM) (out : SolveOutput nM T) (hc : SolverContract p out)
    (hopt : out.milp_status = "Optimal")
    (hflag : p.total_share_coeffs = true) :
    ∀ t, communityDeficit out.sol t → (∃ m, 0 < unmetDemand out.sol m t) →
      ∀ m, out.sol.e_sur m t = 0 :=
  (hc hopt).2.2.2.2 hflag

/-- A concrete one-meter, one-step instance used by the witnesses: the meter
consumes 1 kWh, generates nothing, buys 1 kWh from the retailer, has no
storage, and the community is in deficit with unmet demand. -/
def params1 : MilpParams 1 where
  total_share_coeffs := true
  soc_min := fun _ => 0
  soc_max := fun _ => 0
  eff_bc := fun _ => 1
  eff_bd := fun _ => 1
  initContent := fun _ => 0

/-- The concrete decision state of the one-meter, one-step witness instance. -/
def sol1 : MilpSolution 1 1 where
  e_c := fun _ _ => 1
  e_g := fun _ _ => 0
  e_sup := fun _ _ => 1
  e_sur := fun _ _ => 0
  e_bc := fun _ _ => 0
  e_bd := fun _ _ => 0
  e_bat := fun _ _ => 0
  e_alc := fun _ _ => 0
  e_slc := fun _ _ => 0
  e_bn := fun _ => 0

/-- The witness solve output: status "Optimal" with the concrete solution. -/
def out1 : SolveOutput 1 1 := ⟨"Optimal", sol1⟩

/-- The concrete witness instance satisfies every modelled constraint. -/
theorem feasible1 : Feasible params1 sol1 := by
  refine ⟨fun m t => ?_, fun m t => ?_, fun m t => ?_, fun m t => ?_, fun _ t hd hu m => ?_⟩
  · norm_num [sol1]
  · norm_num [sol1, params1, prevContent]
  · norm_num [sol1, params1]
  · norm_num [sol1]
  · norm_num [sol1]

theorem optimal_solution_energy_balance_witness :
    out1.sol.e_c 0 0 + out1.sol.e_bc 0 0 - out1.sol.e_bd 0 0 - out1.sol.e_g 0 0 =
      (out1.sol.e_sup 0 0 - out1.sol.e_sur 0 0) - out1.sol.e_alc 0 0 + out1.sol.e_slc 0 0 :=
  optimal_solution_energy_balance params1 out1 (fun _ => feasible1) rfl 0 0

theorem optimal_solution_storage_bounds_and_complementarity_witness :
    (params1.soc_min 0 * out1.sol.e_bn 0 ≤ out1.sol.e_bat 0 0 ∧
      out1.sol.e_bat 0 0 ≤ params1.soc_max 0 * out1.sol.e_bn 0) ∧
    ¬(0 < out1.sol.e_bc 0 0 ∧ 0 < out1.sol.e_bd 0 0) :=
  ⟨(optimal_solution_storage_bounds_and_complementarity params1 out1
      (fun _ => feasible1) rfl).1 0 0,
   (optimal_solution_storage_bounds_and_complementarity params1 out1
      (fun _ => feasible1) rfl).2 0 0⟩

theorem total_share_no_external_sale_under_deficit_witness :
    out1.sol.e_sur 0 0 = 0 :=
  total_share_no_external_sale_under_deficit params1 out1 (fun _ => feasible1) rfl rfl 0
    (by norm_num [communityDeficit, sol1, out1, Fin.sum_univ_one])
    ⟨0, by norm_num [unmetDemand, sol1, out1]⟩ 0

/-! ## Modelled Output Mapper cost disaggregation (spec section 4.5) -/

/-- Modelled from the spec: the per-meter objective sub-terms of a solved MILP
handed to the Output Mapper (`CollectiveMILPPool.generate_outputs` is not
among the provided source files). -/
structure CostInputs (nM : ℕ) where
  purchase_cost : Fin nM → ℚ
  sale_revenue : Fin nM → ℚ
  deg_cost : Fin nM → ℚ
  p_extra_cost : Fin nM → ℚ
  inv_cost : Fin nM → ℚ

/-- The individual cost of one meter: purchase minus sale plus degradation
plus overcapacity penalty plus investment. -/
def indCost {nM : ℕ} (ci : CostInputs nM) (m : Fin nM) : ℚ :=
  ci.purchase_cost m - ci.sale_revenue m + ci.deg_cost m + ci.p_extra_cost m + ci.inv_cost m

/-- The cost fields of the documented output schema. -/
structure CostOutputs (nM : ℕ) where
  obj_value : ℚ
  c_ind2pool : Fin nM → ℚ
  c_ind2pool_without_deg : Fin nM → ℚ
  c_ind2pool_without_p_extra : Fin nM → ℚ
  c_ind2pool_without_deg_and_p_extra : Fin nM → ℚ
  deg_cost2pool : Fin nM → ℚ
  p_extra_cost2pool : Fin nM → ℚ

/-- Modelled from the spec: the Output Mapper computes the cost variants by
subtracting the corresponding objective sub-terms, not by re-solving, and
reports the collective objective value. -/
def mapCosts {nM : ℕ} (ci : CostInputs nM) : CostOutputs nM where
  obj_value := ∑ m, indCost ci m
  c_ind2pool := indCost ci
  c_ind2pool_without_deg := fun m => indCost ci m - ci.deg_cost m
  c_ind2pool_without_p_extra := fun m => indCost ci m - ci.p_extra_cost m
  c_ind2pool_without_deg_and_p_extra := fun m => indCost ci m - ci.deg_cost m - ci.p_extra_cost m
  deg_cost2pool := ci.deg_cost
  p_extra_cost2pool := ci.p_extra_cost

/-- C2: the reported `obj_value` equals the sum of the disaggregated cost
fields (purchase minus sale plus degradation plus overcapacity plus
investment), and each per-meter cost variant equals `c_ind2pool` minus the
corresponding objective sub-terms, obtained by subtraction. -/
theorem obj_value_decomposition_and_cost_variants {nM : ℕ} (ci : CostInputs nM) :
    (mapCosts ci).obj_value =
      (∑ m, ci.purchase_cost m) - (∑ m, ci.sale_revenue m) +
      (∑ m, (mapCosts ci).deg_cost2pool m) + (∑ m, (mapCosts ci).p_extra_cost2pool m) +
      (∑ m, ci.inv_cost m) ∧
    (∀ m, (mapCosts ci).c_ind2pool_without_deg m =
      (mapCosts ci).c_ind2pool m - (mapCosts ci).deg_cost2pool m) ∧
    (∀ m, (mapCosts ci).c_ind2pool_without_p_extra m =
      (mapCosts ci).c_ind2pool m - (mapCosts ci).p_extra_cost2pool m) ∧
    (∀ m, (mapCosts ci).c_ind2pool_without_deg_and_p_extra m =
      (mapCosts ci).c_ind2pool m - (mapCosts ci).deg_cost2pool m -
        (mapCosts ci).p_extra_cost2pool m) := by
  refine ⟨?_, fun m => rfl, fun m => rfl, fun m => rfl⟩
  simp only [mapCosts, indCost, Finset.sum_add_distrib, Finset.sum_sub_distrib]

/-! ## Modelled Solver Adapter status handling (spec sections 4.4, 4.5, 7) -/

/-- Modelled from the spec: the possible outcomes of the external
branch-and-bound MILP solver. -/
inductive SolverOutcome
  | optimal
  | infeasible
  | unbounded
  | subOptimal
  | notSolved
deriving DecidableEq

/-- Modelled from the spec: the status string under which each solver outcome
is surfaced verbatim to the caller; the only success value is "Optimal". -/
def statusString : SolverOutcome → String
  | .optimal => "Optimal"
  | .infeasible => "Infeasible"
  | .unbounded => "Unbounded"
  | .subOptimal => "SubOptimal"
  | .notSolved => "Not Solved"

/-- The outputs record as far as status handling is concerned: the status
string, and the numeric fields, present only for an optimal solve. -/
structure MilpOutputs (nM : ℕ) where
  milp_status : String
  numeric : Option (CostOutputs nM)

/-- Modelled from the spec: `generate_outputs` passes the solver status
through unchanged as data (never raising), and populates the remaining
numeric fields only when the solve was optimal. -/
def generateOutputs {nM : ℕ} (outcome : SolverOutcome) (ci : CostInputs nM) :
    MilpOutputs nM where
  milp_status := statusString outcome
  numeric := if outcome = SolverOutcome.optimal then some (mapCosts ci) else none

/-- C3: `milp_status` is the solver status passed through unchanged, its only
success value is "Optimal", and when it is not "Optimal" the numeric output
fields are absent. -/
theorem milp_status_contract {nM : ℕ} (outcome : SolverOutcome) (ci : CostInputs nM) :
    (generateOutputs outcome ci).milp_status = statusString outcome ∧
    ((generateOutputs outcome ci).milp_status = "Optimal" ↔
      outcome = SolverOutcome.optimal) ∧
    ((generateOutputs outcome ci).milp_status ≠ "Optimal" →
      (generateOutputs outcome ci).numeric = none) := by
  refine ⟨rfl, ?_, ?_⟩ <;>
    cases outcome <;> simp [generateOutputs, statusString]

/-- A concrete cost record for the status-contract witness. -/
def ci1 : CostInputs 1 where
  purchase_cost := fun _ => 0
  sale_revenue := fun _ => 0
  deg_cost := fun _ => 0
  p_extra_cost := fun _ => 0
  inv_cost := fun _ => 0

theorem milp_status_contract_witness :
    (generateOutputs SolverOutcome.infeasible ci1).milp_status = "Infeasible" ∧
    (generateOutputs SolverOutcome.infeasible ci1).numeric = none :=
  ⟨(milp_status_contract SolverOutcome.infeasible ci1).1.trans rfl,
   (milp_status_contract SolverOutcome.infeasible ci1).2.2 (by simp [generateOutputs, statusString])⟩

/-! ## Modelled Horizon & Config Resolver (spec sections 4.1, 7) -/

/-- Modelled from the spec: the per-meter part of the backpack checked by the
Horizon & Config Resolver (the resolver itself is not among the provided
source files). -/
structure MeterConfig where
  l_buy : List ℚ
  l_sell : List ℚ
  e_c : List ℚ
  e_g_factor : List ℚ
  soc_min : ℚ
  soc_max : ℚ
  p_gn_min : ℚ
  p_gn_max : ℚ
  e_bn_min : ℚ
  e_bn_max : ℚ
  eff_bc : ℚ
  eff_bd : ℚ

/-- The community-level part of the backpack checked by the resolver. -/
structure Backpack where
  nr_days : ℚ
  delta_t : ℚ
  meters : List (String × MeterConfig)

/-- A configuration error names the offending meter (none for a community
field) and the offending field. -/
structure ConfigurationError where
  meter : Option String
  fieldName : String
deriving DecidableEq

/-- The horizon length `T = nr_days * 24 / delta_t`. -/
def horizonLength (b : Backpack) : ℚ := b.nr_days * 24 / b.delta_t

/-- The validity conditions for one meter: every time series of length `T`,
`soc_min ≤ soc_max`, `p_gn_min ≤ p_gn_max`, `e_bn_min ≤ e_bn_max`, and both
efficiencies in `(0, 1]`. -/
def ValidMeter (m : MeterConfig) (T : ℚ) : Prop :=
  (m.l_buy.length : ℚ) = T ∧ (m.l_sell.length : ℚ) = T ∧ (m.e_c.length : ℚ) = T ∧
  (m.e_g_factor.length : ℚ) = T ∧ m.soc_min ≤ m.soc_max ∧ m.p_gn_min ≤ m.p_gn_max ∧
  m.e_bn_min ≤ m.e_bn_max ∧ (0 < m.eff_bc ∧ m.eff_bc ≤ 1) ∧ (0 < m.eff_bd ∧ m.eff_bd ≤ 1)

/-- The validity conditions for a whole backpack: `delta_t > 0`, `nr_days`
positive, and every meter valid for the horizon `T`. -/
def ValidBackpack (b : Backpack) : Prop :=
  0 < b.delta_t ∧ 0 < b.nr_days ∧ ∀ p ∈ b.meters, ValidMeter p.2 (horizonLength b)

/-- Modelled from the spec: the per-meter validation of the Horizon & Config
Resolver; on violation it fails with a `ConfigurationError` naming the
offending meter and field. -/
def checkMeter (id : String) (m : MeterConfig) (T : ℚ) : Except ConfigurationError Unit :=
  if (m.l_buy.length : ℚ) = T then
  if (m.l_sell.length : ℚ) = T then
  if (m.e_c.length : ℚ) = T then
  if (m.e_g_factor.length : ℚ) = T then
  if m.soc_min ≤ m.soc_max then
  if m.p_gn_min ≤ m.p_gn_max then
  if m.e_bn_min ≤ m.e_bn_max then
  if 0 < m.eff_bc ∧ m.eff_bc ≤ 1 then
  if 0 < m.eff_bd ∧ m.eff_bd ≤ 1 then
    .ok ()
  else .error ⟨some id, "eff_bd"⟩
  else .error ⟨some id, "eff_bc"⟩
  else .error ⟨some id, "e_bn_min/e_bn_max"⟩
  else .error ⟨some id, "p_gn_min/p_gn_max"⟩
  else .error ⟨some id, "soc_min/soc_max"⟩
  else .error ⟨some id, "e_g_factor"⟩
  else .error ⟨some id, "e_c"⟩
  else .error ⟨some id, "l_sell"⟩
  else .error ⟨some id, "l_buy"⟩

/-- Validation of every meter in order, stopping at the first violation. -/
def checkMeters (T : ℚ) : List (String × MeterConfig) → Except ConfigurationError Unit
  | [] => .ok ()
  | (id, m) :: rest =>
    match checkMeter id m T with
    | .ok _ => checkMeters T rest
    | .error e => .error e

/-- Modelled from the spec: the whole-backpack validation of the Horizon &
Config Resolver, run before model construction. -/
def checkBackpack (b : Backpack) : Except ConfigurationError Unit :=
  if 0 < b.delta_t then
    if 0 < b.nr_days then checkMeters (horizonLength b) b.meters
    else .error ⟨none, "nr_days"⟩
  else .error ⟨none, "delta_t"⟩

/-- Modelled from the spec: the resolver runs before model construction;
`build` is invoked only when the backpack passed validation, so no partial
model is built on violation. -/
def runResolver {Model : Type} (build : Backpack → Model) (b : Backpack) :
    Except ConfigurationError Model :=
  match checkBackpack b with
  | .error e => .error e
  | .ok _ => .ok (build b)

theorem checkMeter_ok_iff (id : String) (m : MeterConfig) (T : ℚ) :
    checkMeter id m T = .ok () ↔ ValidMeter m T := by
  unfold checkMeter ValidMeter
  split_ifs with h1 h2 h3 h4 h5 h6 h7 h8 h9
  all_goals try exact iff_of_true rfl ⟨h1, h2, h3, h4, h5, h6, h7, h8, h9⟩
  all_goals exact iff_of_false (fun h => nomatch h) (fun hv => by tauto)

theorem checkMeters_cons_ok (T : ℚ) (id : String) (m : MeterConfig)
    (rest : List (String × MeterConfig)) (h : checkMeter id m T = .ok ()) :
    checkMeters T ((id, m) :: rest) = checkMeters T rest := by
  conv_lhs => rw [checkMeters]
  rw [h]

theorem checkMeters_cons_error (T : ℚ) (id : String) (m : MeterConfig)
    (rest : List (String × MeterConfig)) (e : ConfigurationError)
    (h : checkMeter id m T = .error e) :
    checkMeters T ((id, m) :: rest) = .error e := by
  conv_lhs => rw [checkMeters]
  rw [h]

theorem checkMeters_ok_iff (T : ℚ) (l : List (String × MeterConfig)) :
    checkMeters T l = .ok () ↔ ∀ p ∈ l, ValidMeter p.2 T := by
  induction l with
  | nil => simp [checkMeters]
  | cons hd tl ih =>
    obtain ⟨id, m⟩ := hd
    cases he : checkMeter id m T with
    | ok u =>
      cases u
      rw [checkMeters_cons_ok T id m tl he, ih]
      have hv : ValidMeter m T := (checkMeter_ok_iff id m T).mp he
      constructor
      · intro h p hp
        rcases List.mem_cons.mp hp with hp1 | hp2
        · rw [hp1]
          exact hv
        · exact h p hp2
      · intro h p hp
        exact h p (List.mem_cons_of_mem _ hp)
    | error e =>
      rw [checkMeters_cons_error T id m tl e he]
      refine iff_of_false (fun hh => Except.noConfusion hh) (fun h => ?_)
      have hv := (checkMeter_ok_iff id m T).mpr (h (id, m) (List.mem_cons_self _ _))
      rw [he] at hv
      exact Except.noConfusion hv

theorem checkBackpack_ok_iff (b : Backpack) :
    checkBackpack b = .ok () ↔ ValidBackpack b := by
  unfold checkBackpack ValidBackpack
  split_ifs with h1 h2
  · rw [checkMeters_ok_iff]
    exact ⟨fun h => ⟨h1, h2, h⟩, fun h => h.2.2⟩
  · exact iff_of_false (fun h => nomatch h) (fun hv => h2 hv.2.1)
  · exact iff_of_false (fun h => nomatch h) (fun hv => h1 hv.1)

/-- C4: for every backpack that violates a validity condition, validation
fails with a `ConfigurationError` (carrying the offending meter and field),
and the resolver returns that error without building any model. -/
theorem invalid_backpack_raises_configuration_error (b : Backpack)
    (hb : ¬ ValidBackpack b) :
    ∃ e : ConfigurationError, checkBackpack b = .error e ∧
      ∀ (Model : Type) (build : Backpack → Model), runResolver build b = .error e := by
  cases hcb : checkBackpack b with
  | ok u =>
    cases u
    exact absurd ((checkBackpack_ok_iff b).mp hcb) hb
  | error e =>
    refine ⟨e, rfl, fun Model build => ?_⟩
    unfold runResolver
    rw [hcb]

/-- A backpack violating the resolver conditions: empty time series (length 0
instead of 24) and inverted state-of-charge bounds. -/
def badBackpack : Backpack where
  nr_days := 1
  delta_t := 1
  meters := [("M1",
    { l_buy := [], l_sell := [], e_c := [], e_g_factor := [],
      soc_min := 1, soc_max := 0, p_gn_min := 0, p_gn_max := 1,
      e_bn_min := 0, e_bn_max := 1, eff_bc := 1, eff_bd := 1 })]

theorem invalid_backpack_raises_configuration_error_witness :
    ¬ ValidBackpack badBackpack ∧
    ∃ e : ConfigurationError, checkBackpack badBackpack = .error e ∧
      ∀ (Model : Type) (build : Backpack → Model),
        runResolver build badBackpack = .error e :=
  ⟨by norm_num [ValidBackpack, ValidMeter, badBackpack, horizonLength],
   invalid_backpack_raises_configuration_error badBackpack
     (by norm_num [ValidBackpack, ValidMeter, badBackpack, horizonLength])⟩

/-! ## Embedding of `src/rec_sizing/optimization_functions.py` -/

/-- Embedding of `run_pre_collective_pool_milp` (lines 101-109 of
`optimization_functions.py`): one `CollectiveMILPPool` is constructed from the
backpack, `solve_milp` is called once, and the value of `generate_outputs` is
returned unchanged.  The in-place solve of the Python object is made explicit
as state passing, and the three methods of the class (not among the provided
source files) are parameters. -/
def run_pre_collective_pool_milp {Milp Outputs : Type}
    (collectiveMILPPool : Backpack → Milp) (solve_milp : Milp → Milp)
    (generate_outputs : Milp → Outputs) (backpack : Backpack) : Outputs :=
  generate_outputs (solve_milp (collectiveMILPPool backpack))

/-- C7: for every backpack, `run_pre_collective_pool_milp` performs exactly
one build-solve-extract sequence: it equals `generate_outputs` applied to the
result of one `solve_milp` applied to one `CollectiveMILPPool` construction,
with no retry and with the extracted outputs returned unchanged. -/
theorem run_pre_collective_pool_milp_single_solve {Milp Outputs : Type}
    (collectiveMILPPool : Backpack → Milp) (solve_milp : Milp → Milp)
    (generate_outputs : Milp → Outputs) (backpack : Backpack) :
    run_pre_collective_pool_milp collectiveMILPPool solve_milp generate_outputs backpack =
      generate_outputs (solve_milp (collectiveMILPPool backpack)) := rfl

end RecSizing
